import Mathlib

/-
Verification of the Market Structure Decision Engine
(backend/app/services of the StockMarketAnalysis repository).

Shallow embedding conventions:
- Python floats are modelled as rationals (ℚ); `statistics.mean` is sum/length.
- Python dict rows are modelled as structures; a key that may be absent or
  non-numeric is an Option / RawField value.
- Code that can raise (division by zero, IndexError) is modelled in
  Except Unit; a caller's try/except that degrades to [] catches the error.
- Python str timestamps are Lean String values, compared lexicographically
  exactly as Python compares str with <=.
-/

set_option maxRecDepth 10000

namespace Engine

/-- RawField models a loosely typed numeric dict entry: an actual number,
a truthy non-numeric value (e.g. a junk string) on which Python's float()
raises, or None (falsy, and float() raises on it too). -/
inductive RawField where
  | num (q : ℚ)
  | junk
  | noneV
deriving DecidableEq

/-- Python truthiness of a RawField: 0 and None are falsy, any other
number and any junk value is truthy. -/
def RawField.truthy : RawField → Bool
  | .num q => q != 0
  | .junk => true
  | .noneV => false

/-- Python float() conversion: numbers pass through, junk and None raise
(none). -/
def RawField.toFloat : RawField → Option ℚ
  | .num q => some q
  | .junk => none
  | .noneV => none

/-- Python `a or b` over two optional dict lookups (missing keys are falsy),
with 0 treated as falsy, falling back to the literal 0. -/
def coalesce (a b : Option RawField) : RawField :=
  match a with
  | some f => if f.truthy then f else
      match b with
      | some g => if g.truthy then g else .num 0
      | none => .num 0
  | none =>
      match b with
      | some g => if g.truthy then g else .num 0
      | none => .num 0

/-- Python `a or 0` for a single optional lookup. -/
def orZero (a : Option RawField) : RawField :=
  match a with
  | some f => if f.truthy then f else .num 0
  | none => .num 0

/-- Python string truthiness for an optional str field: missing and the
empty string are falsy. -/
def ostr (a : Option String) : Option String :=
  match a with
  | some s => if s = "" then none else some s
  | none => none

/-- Python `x or y` over two optional str fields. -/
def orStr (a b : Option String) : Option String :=
  match ostr a with
  | some s => some s
  | none => ostr b

/-- Python `x or y or z` over three optional str fields. -/
def orStr3 (a b c : Option String) : Option String :=
  match ostr a with
  | some s => some s
  | none => orStr b c

/-- Candle is the canonical normalized candle: numeric OHLCV plus an
optional timestamp (the normalizers keep rows whose time fields are all
missing, storing None). -/
structure Candle where
  open_p : ℚ
  high : ℚ
  low : ℚ
  close : ℚ
  volume : ℚ
  time : Option String
deriving DecidableEq

/-- default_candle stands for an out-of-range list access; the embedding
only reads it at indices proven in range. -/
def default_candle : Candle := ⟨0, 0, 0, 0, 0, none⟩

/-- Zone is the slice of an accumulation/distribution zone dict that the
arbitrator, the stitcher and the state builders read: interval bounds as
ISO strings plus the optional "confidence" and "summary" entries (read
with .get and a default). -/
structure Zone where
  start_time : String
  end_time : String
  confidence : Option String
  summary : Option String
deriving DecidableEq

/-- FailEv is the slice of a failed-breakout event dict that the stitcher
and the state builders read: the four optional time entries plus the
optional "direction", "summary" and "confidence" entries. -/
structure FailEv where
  failure_time : Option String
  start_time : Option String
  end_time : Option String
  breakout_time : Option String
  direction : Option String
  summary : Option String
  confidence : Option String
deriving DecidableEq

end Engine

namespace MarketStructureService

open Engine

/-- resolve_bias from market_structure_service.py (lines 131-154): fixed
priority Failed Breakout > Distribution > Accumulation > Neutral; a
non-empty failure list forces ("FAILED_BREAKOUT", "High"); otherwise the
last distribution (then accumulation) zone wins with its own confidence
(default "Medium"); all empty gives ("NEUTRAL", "Low"). -/
def resolve_bias (active_acc active_dist : List Zone) (active_fail : List FailEv) :
    String × String :=
  if active_fail ≠ [] then ("FAILED_BREAKOUT", "High")
  else
    match active_dist.getLast? with
    | some zone => ("DISTRIBUTION", zone.confidence.getD "Medium")
    | none =>
      match active_acc.getLast? with
      | some zone => ("ACCUMULATION", zone.confidence.getD "Medium")
      | none => ("NEUTRAL", "Low")

end MarketStructureService

namespace CompositeScoringService

/-- clamp01 is the input normalization max(0, min(100, x)) of
calculate_composite_score. -/
def clamp0100 (x : ℚ) : ℚ := max 0 (min 100 x)

/-- composite_value is the weighted blend computed at lines 56-60 of
composite_scoring_service.py, from the clamped inputs. -/
def composite_value (technical fundamental stability : ℚ) : ℚ :=
  clamp0100 technical * (40 / 100) +
  clamp0100 fundamental * (40 / 100) +
  clamp0100 stability * (20 / 100)

/-- roundHalfEven models Python round(x) on an exact rational: round half
to even (banker's rounding). -/
def roundHalfEven (x : ℚ) : ℤ :=
  let f := ⌊x⌋
  if x - f < 1 / 2 then f
  else if x - f > 1 / 2 then f + 1
  else if f % 2 = 0 then f else f + 1

/-- roundTo models Python round(x, n) on an exact rational. -/
def roundTo (n : ℕ) (x : ℚ) : ℚ :=
  (roundHalfEven (x * (10 : ℚ) ^ n) : ℚ) / (10 : ℚ) ^ n

/-- get_band from composite_scoring_service.py (lines 95-101): first
matching band of STRONG (70,100), NEUTRAL (40,69), WEAK (0,39) in dict
order, with a "NEUTRAL" fallback when no band matches. -/
def get_band (score : ℚ) : String :=
  if 70 ≤ score ∧ score ≤ 100 then "STRONG"
  else if 40 ≤ score ∧ score ≤ 69 then "NEUTRAL"
  else if 0 ≤ score ∧ score ≤ 39 then "WEAK"
  else "NEUTRAL"

/-- CompositeResult is the dict returned by calculate_composite_score:
rounded value, band, rounded attribution and percentage breakdown. -/
structure CompositeResult where
  value : ℚ
  band : String
  attribution : ℚ × ℚ × ℚ
  breakdown : ℚ × ℚ × ℚ
deriving DecidableEq

/-- calculate_composite_score from composite_scoring_service.py (lines
32-93): clamp inputs, blend with weights 0.40/0.40/0.20, band from the
unrounded composite, attribution and percentage breakdown (zero when the
total contribution is 0). -/
def calculate_composite_score (technical fundamental stability : ℚ) :
    CompositeResult :=
  let tech := clamp0100 technical
  let funda := clamp0100 fundamental
  let stab := clamp0100 stability
  let comp := tech * (40 / 100) + funda * (40 / 100) + stab * (20 / 100)
  let band := get_band comp
  let tech_c := tech * (40 / 100)
  let funda_c := funda * (40 / 100)
  let stab_c := stab * (20 / 100)
  let total := tech_c + funda_c + stab_c
  let pcts :=
    if total > 0 then
      (roundTo 1 (tech_c / total * 100), roundTo 1 (funda_c / total * 100),
        roundTo 1 (stab_c / total * 100))
    else (0, 0, 0)
  { value := roundTo 1 comp
    band := band
    attribution := (roundTo 1 tech, roundTo 1 funda, roundTo 1 stab)
    breakdown := pcts }

end CompositeScoringService

namespace RegimeHistoryService

open Engine

/-- RawCandle models a row of ohlc_data["data"] as the stitcher and the
neutral-state builder consume it: numeric OHLCV plus the optional "time"
and "date" entries. -/
structure RawCandle where
  open_p : ℚ
  high : ℚ
  low : ℚ
  close : ℚ
  volume : ℚ
  time : Option String
  date : Option String
deriving DecidableEq

/-- get_date_str is the lookup candle.get("time") or candle.get("date")
performed per candle by generate_history (line 52). -/
def get_date_str (c : RawCandle) : Option String := orStr c.time c.date

/-- RawState is one per-candle (time, bias, confidence) tuple appended to
raw_states by generate_history (the unused "index" entry is omitted). -/
structure RawState where
  time : String
  bias : String
  confidence : String
deriving DecidableEq

/-- RegimeEvent mirrors the RegimeEvent dataclass of
regime_history_service.py. -/
structure RegimeEvent where
  start_time : String
  end_time : String
  bias : String
  confidence : String
  duration : ℕ
  transition_in : Option String
  transition_out : Option String
  narrative : Option String
deriving DecidableEq

/-- active_fail_check is the failed-breakout membership test of
generate_history (lines 73-82): match on failure_time, else containment
in the [start, end] interval built from the or-chains over start_time /
breakout_time / failure_time and end_time / failure_time / start. -/
def active_fail_check (f : FailEv) (date_str : String) : Bool :=
  let f_start := orStr3 f.start_time f.breakout_time f.failure_time
  let f_end :=
    match ostr f.end_time with
    | some s => some s
    | none =>
      match ostr f.failure_time with
      | some s => some s
      | none => f_start
  if f.failure_time = some date_str then true
  else
    match f_start, f_end with
    | some s, some e => decide (s ≤ date_str) && decide (date_str ≤ e)
    | _, _ => false

/-- raw_states is the per-candle loop of generate_history (lines 51-94):
candles without a truthy time/date are skipped; for the others the active
zone/event subsets are collected and resolve_bias is applied. -/
def raw_states (candles : List RawCandle) (acc dist : List Zone)
    (fail : List FailEv) : List RawState :=
  candles.filterMap (fun c =>
    match get_date_str c with
    | none => none
    | some date_str =>
      let active_acc := acc.filter
        (fun z => decide (z.start_time ≤ date_str) && decide (date_str ≤ z.end_time))
      let active_dist := dist.filter
        (fun z => decide (z.start_time ≤ date_str) && decide (date_str ≤ z.end_time))
      let active_fail := fail.filter (fun f => active_fail_check f date_str)
      let bc := MarketStructureService.resolve_bias active_acc active_dist active_fail
      some { time := date_str, bias := bc.1, confidence := bc.2 })

/-- finalize_event from regime_history_service.py (lines 154-164): set
transition_out and attach the per-bias narrative template. -/
def finalize_event (e : RegimeEvent) (next_bias : Option String) : RegimeEvent :=
  { e with
    transition_out := next_bias
    narrative :=
      if e.bias = "NEUTRAL" then some "Market lacked clear directional structure."
      else if e.bias = "ACCUMULATION" then
        some ("Price consolidated in demand zone for " ++ toString e.duration ++ " bars.")
      else if e.bias = "DISTRIBUTION" then
        some ("Supply dominated price action for " ++ toString e.duration ++ " bars.")
      else if e.bias = "FAILED_BREAKOUT" then
        some "Attempted breakout triggered sudden reversal."
      else e.narrative }

/-- compress_go is the body of the stitching loop of _compress_states
(lines 108-150), carried out from an open current event: stitch when the
bias repeats and is not FAILED_BREAKOUT, otherwise close the current
event and open a new one with transition_in set to the previous bias. -/
def compress_go (cur : RegimeEvent) : List RawState → List RegimeEvent
  | [] => [finalize_event cur none]
  | s :: rest =>
    if s.bias = cur.bias ∧ s.bias ≠ "FAILED_BREAKOUT" then
      compress_go { cur with end_time := s.time, duration := cur.duration + 1 } rest
    else
      finalize_event cur (some s.bias) ::
        compress_go
          { start_time := s.time, end_time := s.time, bias := s.bias,
            confidence := s.confidence, duration := 1,
            transition_in := some cur.bias, transition_out := none,
            narrative := none } rest

/-- compress_states from regime_history_service.py (lines 101-152). -/
def compress_states : List RawState → List RegimeEvent
  | [] => []
  | s :: rest =>
    compress_go
      { start_time := s.time, end_time := s.time, bias := s.bias,
        confidence := s.confidence, duration := 1,
        transition_in := none, transition_out := none, narrative := none } rest

/-- generate_history from regime_history_service.py (lines 24-99): build
the per-candle raw states and compress them into RegimeEvents. -/
def generate_history (candles : List RawCandle) (acc dist : List Zone)
    (fail : List FailEv) : List RegimeEvent :=
  if candles = [] then []
  else compress_states (raw_states candles acc dist fail)

/-- sum_durations is the total bar count covered by a list of events. -/
def sum_durations (evs : List RegimeEvent) : ℕ := (evs.map RegimeEvent.duration).sum

/-- bias_flatten expands each event into one bias label per covered
candle, in order; it reconstructs the per-candle classification sequence
exactly when the events tile the series contiguously without overlap. -/
def bias_flatten (evs : List RegimeEvent) : List String :=
  (evs.map (fun e => List.replicate e.duration e.bias)).flatten

end RegimeHistoryService

namespace MarketStructureService

open Engine

/-- StateDetails models the bias-specific "details" payload attached to a
MarketStructureState. -/
inductive StateDetails where
  | neutralD (reason : String) (compression_pct : ℚ) (vol_rel : ℚ) (duration : ℕ)
  | eventD (event : FailEv)
  | zoneD (zone : Zone)
  | errorD (msg : String)
deriving DecidableEq

/-- MarketStructureState mirrors the MarketStructureState dataclass of
market_structure_service.py. -/
structure MarketStructureState where
  bias : String
  confidence : String
  explanation : String
  details : StateDetails
  transition_narration : Option String
  transition : Option (String × String)
  regime_history : List RegimeHistoryService.RegimeEvent
deriving DecidableEq

/-- takeLastN is the Python slice l[-n:]. -/
def takeLastN (n : ℕ) (l : List RegimeHistoryService.RawCandle) :
    List RegimeHistoryService.RawCandle :=
  l.drop (l.length - n)

/-- sliceNeg is the Python slice l[-a:-b] for a > b. -/
def sliceNeg (a b : ℕ) (l : List RegimeHistoryService.RawCandle) :
    List RegimeHistoryService.RawCandle :=
  (l.drop (l.length - a)).take ((l.length - b) - (l.length - a))

/-- maxD is Python max(l) if l else 0. -/
def maxD (l : List ℚ) : ℚ :=
  match l with
  | [] => 0
  | x :: xs => xs.foldl max x

/-- minD is Python min(l) if l else 0. -/
def minD (l : List ℚ) : ℚ :=
  match l with
  | [] => 0
  | x :: xs => xs.foldl min x

/-- meanD is Python sum(l)/len(l) if l else the given default. -/
def meanD (l : List ℚ) (dflt : ℚ) : ℚ :=
  match l with
  | [] => dflt
  | _ => l.sum / (l.length : ℚ)

/-- get_neutral_state from market_structure_service.py (lines 156-185):
NEUTRAL with confidence High, with compression / volume-ratio / duration
evidence computed from the last 20 and prior 20 candles. -/
def get_neutral_state (ohlc_data : List RegimeHistoryService.RawCandle) :
    MarketStructureState :=
  let candles := takeLastN 20 ohlc_data
  let vols := candles.map RegimeHistoryService.RawCandle.volume
  let highs := candles.map RegimeHistoryService.RawCandle.high
  let lows := candles.map RegimeHistoryService.RawCandle.low
  let hi := maxD highs
  let lo := minD lows
  let mid := if hi + lo ≠ 0 then (hi + lo) / 2 else 0
  let comp := if mid > 0 then (hi - lo) / mid else 0
  let prior_vols := (sliceNeg 40 20 ohlc_data).map RegimeHistoryService.RawCandle.volume
  let avg_curr := meanD vols 0
  let avg_prior := meanD prior_vols avg_curr
  let vol_rel := if avg_prior > 0 then avg_curr / avg_prior else 1
  { bias := "NEUTRAL"
    confidence := "High"
    explanation := "No clear edge detected. Market is in neutral consolidation."
    details := .neutralD "No accumulation or failed breakout patterns found."
      (CompositeScoringService.roundTo 4 comp) (CompositeScoringService.roundTo 2 vol_rel)
      candles.length
    transition_narration := none
    transition := none
    regime_history := [] }

/-- create_failed_breakout_state from market_structure_service.py (lines
187-202). -/
def create_failed_breakout_state (event : FailEv) : MarketStructureState :=
  { bias := "FAILED_BREAKOUT"
    confidence := event.confidence.getD "Low"
    explanation :=
      if event.direction = some "down" then
        "Bullish signaling. Price failed to follow through, suggesting a seller trap."
      else
        "Bearish signaling. Price failed to follow through, suggesting a buyer trap."
    details := .eventD event
    transition_narration := none
    transition := none
    regime_history := [] }

/-- create_distribution_state from market_structure_service.py (lines
204-213). -/
def create_distribution_state (zone : Zone) : MarketStructureState :=
  { bias := "DISTRIBUTION"
    confidence := zone.confidence.getD "Low"
    explanation := zone.summary.getD "Early distributional behavior; requires confirmation."
    details := .zoneD zone
    transition_narration := none
    transition := none
    regime_history := [] }

/-- create_accumulation_state from market_structure_service.py (lines
215-228). -/
def create_accumulation_state (zone : Zone) : MarketStructureState :=
  { bias := "ACCUMULATION"
    confidence := zone.confidence.getD "Low"
    explanation := zone.summary.getD "Condition present, but confirmation signals are mixed."
    details := .zoneD zone
    transition_narration := none
    transition := none
    regime_history := [] }

/-- error_state models the outer try/except of evaluate_structure (lines
120-127), reached in the embedding only on the branches where the code
would dereference a missing latest zone/event. -/
def error_state : MarketStructureState :=
  { bias := "NEUTRAL"
    confidence := "Low"
    explanation := "Error evaluating market structure."
    details := .errorD "error"
    transition_narration := none
    transition := none
    regime_history := [] }

/-- pycap is Python str.capitalize: first character upper-cased, the rest
lower-cased. -/
def pycap (s : String) : String :=
  match s.data with
  | [] => ""
  | c :: cs => String.mk (c.toUpper :: cs.map Char.toLower)

/-- evaluate_structure_core is the Decision Matrix body of
evaluate_structure (market_structure_service.py lines 83-118), taken from
the point where the three detectors' outputs are in hand (the acc_zones /
dist_zones parameters of the method, and the failed-breakout list the
method computes): resolve the bias over the latest candidates, build the
bias-specific state, attach the stitched regime history, and narrate a
transition when the bias changed to a non-NEUTRAL value. -/
def evaluate_structure_core (ohlc_data : List RegimeHistoryService.RawCandle)
    (accumulation_zones distribution_zones : List Zone)
    (failed_breakouts : List FailEv) (previous_bias : Option String) :
    MarketStructureState :=
  let latest_failure := failed_breakouts.getLast?
  let latest_distribution := distribution_zones.getLast?
  let latest_accumulation := accumulation_zones.getLast?
  let bc := resolve_bias
    (match latest_accumulation with | some z => [z] | none => [])
    (match latest_distribution with | some z => [z] | none => [])
    (match latest_failure with | some f => [f] | none => [])
  let state :=
    if bc.1 = "FAILED_BREAKOUT" then
      match latest_failure with
      | some e => create_failed_breakout_state e
      | none => error_state
    else if bc.1 = "DISTRIBUTION" then
      match latest_distribution with
      | some z => create_distribution_state z
      | none => error_state
    else if bc.1 = "ACCUMULATION" then
      match latest_accumulation with
      | some z => create_accumulation_state z
      | none => error_state
    else get_neutral_state ohlc_data
  let state := { state with regime_history :=
    (RegimeHistoryService.generate_history ohlc_data accumulation_zones
      distribution_zones failed_breakouts) }
  match ostr previous_bias with
  | some pb =>
    if pb ≠ state.bias ∧ state.bias ≠ "NEUTRAL" then
      { state with
        transition_narration := some ("Market structure shifted from " ++ pycap pb
          ++ " → " ++ pycap state.bias)
        transition := some (pb, state.bias) }
    else state
  | none => state

end MarketStructureService

namespace AccumulationZoneService

open Engine

/-- RawRowA models a loosely typed input row as the accumulation and
failed-breakout normalizers read it: for each OHLCV field the lowercase
and the capitalized dict entry, plus the three possible time entries. -/
structure RawRowA where
  open_l : Option RawField
  open_u : Option RawField
  high_l : Option RawField
  high_u : Option RawField
  low_l : Option RawField
  low_u : Option RawField
  close_l : Option RawField
  close_u : Option RawField
  volume_l : Option RawField
  volume_u : Option RawField
  date : Option String
  time : Option String
  timestamp : Option String
deriving DecidableEq

/-- parse_row is the body of the accumulation normalizer's per-row try
block (accumulation_zone_service.py lines 376-385): float() over the
or-chain of the lowercase/capitalized entry with fallback 0, and the
or-chain of the three time entries; a row on which any float() raises is
dropped (none). -/
def parse_row (r : RawRowA) : Option Candle :=
  match (coalesce r.open_l r.open_u).toFloat, (coalesce r.high_l r.high_u).toFloat,
      (coalesce r.low_l r.low_u).toFloat, (coalesce r.close_l r.close_u).toFloat,
      (coalesce r.volume_l r.volume_u).toFloat with
  | some o, some h, some l, some c, some v =>
    some { open_p := o, high := h, low := l, close := c, volume := v,
           time := orStr3 r.date r.time r.timestamp }
  | _, _, _, _, _ => none

/-- normalize from accumulation_zone_service.py (lines 373-386): the
per-row loop appending each successfully parsed row, silently skipping
rows whose parse raises; no sorting and no de-duplication is performed. -/
def normalize : List RawRowA → List Candle
  | [] => []
  | r :: rest =>
    match parse_row r with
    | some c => c :: normalize rest
    | none => normalize rest

/-- AccMetrics is the metrics map attached to a formalized accumulation
zone: compression, duration, volume ratio and absorption count. -/
structure AccMetrics where
  compression_pct : ℚ
  duration : ℕ
  volume_rel : ℚ
  absorption_candles : ℕ
deriving DecidableEq

/-- AccumulationZone mirrors the AccumulationZone dataclass
(accumulation_zone_service.py lines 21-35); zone times are the candle
timestamps of the window ends. -/
structure AccumulationZone where
  zone_high : ℚ
  zone_low : ℚ
  start_time : String
  end_time : String
  duration : ℕ
  confidence : String
  score : ℚ
  summary : String
  characteristics : List String
  interpretation : String
  what_to_watch : List String
  failure_signals : List String
  metrics : AccMetrics
deriving DecidableEq

/-- insert_by_start inserts a zone into a start_time-sorted list, before
the first zone with a later-or-equal start (stable insertion). -/
def insert_by_start (z : AccumulationZone) : List AccumulationZone → List AccumulationZone
  | [] => [z]
  | y :: ys =>
    if decide (z.start_time ≤ y.start_time) then z :: y :: ys
    else y :: insert_by_start z ys

/-- sort_by_start is a stable sort on start_time, modelling Python's
stable sorted(zones, key=lambda z: z.start_time). -/
def sort_by_start : List AccumulationZone → List AccumulationZone
  | [] => []
  | z :: zs => insert_by_start z (sort_by_start zs)

/-- merge_step is one iteration of the merge loop of _merge_overlaps
(lines 358-370): if the next zone starts no later than the last merged
zone's end, the last merged zone is mutated in place — bounds widened to
min/max, end_time and duration and score raised to the max — while its
confidence, summary, characteristics and start_time are left as they
were; otherwise the zone is appended. -/
def merge_step (merged : List AccumulationZone) (zone : AccumulationZone) :
    List AccumulationZone :=
  match merged.getLast? with
  | none => [zone]
  | some last =>
    if decide (zone.start_time ≤ last.end_time) then
      merged.dropLast ++
        [{ last with
            zone_high := max last.zone_high zone.zone_high
            zone_low := min last.zone_low zone.zone_low
            end_time := max last.end_time zone.end_time
            duration := max last.duration zone.duration
            score := max last.score zone.score }]
    else merged ++ [zone]

/-- merge_overlaps from accumulation_zone_service.py (lines 354-371):
sort by start_time, then fold the overlap merge. -/
def merge_overlaps (zones : List AccumulationZone) : List AccumulationZone :=
  if zones = [] then []
  else (sort_by_start zones).foldl merge_step []

/-- mk_row_a builds a well-formed all-lowercase input row carrying the
same numeric value in every OHLCV field, used as a concrete test row. -/
def mk_row_a (q : ℚ) (d : Option String) : RawRowA :=
  { open_l := some (.num q), open_u := none, high_l := some (.num q), high_u := none,
    low_l := some (.num q), low_u := none, close_l := some (.num q), close_u := none,
    volume_l := some (.num q), volume_u := none, date := d, time := none,
    timestamp := none }

/-- junk_row_a is a row whose open entry is a truthy non-numeric value,
so float() raises and the row is dropped. -/
def junk_row_a : RawRowA :=
  { open_l := some .junk, open_u := none, high_l := none, high_u := none,
    low_l := none, low_u := none, close_l := none, close_u := none,
    volume_l := none, volume_u := none, date := none, time := none,
    timestamp := none }

/-- chronologically_sorted is the specification-side reading of
"chronologically sorted": each adjacent pair of candles with timestamps
is in non-decreasing time order. -/
def chronologically_sorted : List Candle → Bool
  | [] => true
  | [_] => true
  | a :: b :: rest =>
    (match a.time, b.time with
     | some x, some y => decide (x ≤ y)
     | _, _ => true) && chronologically_sorted (b :: rest)

end AccumulationZoneService

namespace FailedBreakoutService

open Engine

/-- parse_row_fb is the body of the failed-breakout normalizer's per-row
try block (failed_breakout_service.py lines 271-291): the same float()
or-chains as the accumulation normalizer, but a row whose time or-chain
is falsy is also skipped. -/
def parse_row_fb (r : AccumulationZoneService.RawRowA) : Option Candle :=
  match (coalesce r.open_l r.open_u).toFloat, (coalesce r.high_l r.high_u).toFloat,
      (coalesce r.low_l r.low_u).toFloat, (coalesce r.close_l r.close_u).toFloat,
      (coalesce r.volume_l r.volume_u).toFloat with
  | some o, some h, some l, some c, some v =>
    match orStr3 r.date r.time r.timestamp with
    | some t =>
      some { open_p := o, high := h, low := l, close := c, volume := v, time := some t }
    | none => none
  | _, _, _, _, _ => none

/-- normalize_fb from failed_breakout_service.py (lines 266-292): the
per-row loop appending each successfully parsed row in input order; no
sorting and no de-duplication is performed. -/
def normalize_fb : List AccumulationZoneService.RawRowA → List Candle
  | [] => []
  | r :: rest =>
    match parse_row_fb r with
    | some c => c :: normalize_fb rest
    | none => normalize_fb rest

end FailedBreakoutService

namespace DistributionZoneService

open Engine

/-- RawRowD models an input row as the distribution normalizer reads it:
each OHLCV entry looked up with .get(key, 0) (only the lowercase key),
plus the three possible time entries. -/
structure RawRowD where
  open_f : Option RawField
  high_f : Option RawField
  low_f : Option RawField
  close_f : Option RawField
  volume_f : Option RawField
  date : Option String
  time : Option String
  timestamp : Option String
deriving DecidableEq

/-- getOr0 is Python row.get(key, 0): the default 0 applies only when the
key is missing. -/
def getOr0 (a : Option RawField) : RawField := a.getD (.num 0)

/-- parse_row_d is the body of the distribution normalizer's per-row try
block (distribution_zone_service.py lines 280-288). -/
def parse_row_d (r : RawRowD) : Option Candle :=
  match (getOr0 r.open_f).toFloat, (getOr0 r.high_f).toFloat, (getOr0 r.low_f).toFloat,
      (getOr0 r.close_f).toFloat, (getOr0 r.volume_f).toFloat with
  | some o, some h, some l, some c, some v =>
    some { open_p := o, high := h, low := l, close := c, volume := v,
           time := orStr3 r.date r.time r.timestamp }
  | _, _, _, _, _ => none

/-- normalize_d from distribution_zone_service.py (lines 277-290). -/
def normalize_d : List RawRowD → List Candle
  | [] => []
  | r :: rest =>
    match parse_row_d r with
    | some c => c :: normalize_d rest
    | none => normalize_d rest

/-- Profile is one row of the TIMEFRAME_PROFILES table (lines 56-62). -/
structure Profile where
  compression_tolerance : ℚ
  min_duration : ℕ
  precondition_window : ℕ
deriving DecidableEq

/-- timeframe_profile is TIMEFRAME_PROFILES.get(interval, day profile). -/
def timeframe_profile (interval : String) : Profile :=
  if interval = "day" then ⟨5 / 100, 8, 60⟩
  else if interval = "week" then ⟨12 / 100, 6, 30⟩
  else if interval = "hour" then ⟨5 / 100, 8, 60⟩
  else if interval = "15minute" then ⟨4 / 100, 8, 60⟩
  else if interval = "5minute" then ⟨4 / 100, 8, 60⟩
  else ⟨5 / 100, 8, 60⟩

/-- prior_advance_threshold default of DistributionZoneService.__init__. -/
def prior_advance_threshold : ℚ := 20 / 100

/-- lookback default of DistributionZoneService.__init__. -/
def lookback : ℕ := 40

/-- max_duration default of DistributionZoneService.__init__. -/
def max_duration : ℕ := 25

/-- mean_l is statistics.mean of a list known nonempty at every call
site (statistics.mean raises on an empty list; callers guard). -/
def mean_l (l : List ℚ) : ℚ := l.sum / (l.length : ℚ)

/-- check_preconditions from distribution_zone_service.py (lines
116-144): prior advance over the profile window at least the threshold,
and current price not below a truthy SMA-200 (given by indicators, or
computed when at least 200 candles exist); errors model IndexError on a
too-short series and ZeroDivisionError on a zero starting price. -/
def check_preconditions (candles : List Candle) (sma_200_ind : Option ℚ)
    (p : Profile) : Except Unit Bool :=
  let pre_window := p.precondition_window
  match candles.getLast? with
  | none => .error ()
  | some lastc =>
    let curr_price := lastc.close
    if pre_window = 0 then
      .error ()
    else if pre_window ≤ candles.length then
      let price_start := (candles.getD (candles.length - pre_window)
        default_candle).close
      if price_start = 0 then .error ()
      else
        let price_change := (curr_price - price_start) / price_start
        let sma_200 : Option ℚ :=
          match sma_200_ind with
          | some v => some v
          | none =>
            if 200 ≤ candles.length then
              some (mean_l ((candles.drop (candles.length - 200)).map Candle.close))
            else none
        if price_change < prior_advance_threshold then .ok false
        else
          match sma_200 with
          | some v => if v ≠ 0 ∧ curr_price < v then .ok false else .ok true
          | none => .ok true
    else .error ()

/-- DistMetrics is the metrics map of a distribution zone (lines
254-259). -/
structure DistMetrics where
  compression_pct : ℚ
  duration : ℕ
  volume_rel : ℚ
  upper_wick_count : ℕ
deriving DecidableEq

/-- DistZone mirrors the DistributionZone dataclass (lines 17-30). -/
structure DistZone where
  start_time : Option String
  end_time : Option String
  duration : ℕ
  compression_pct : ℚ
  confidence : String
  score : ℕ
  summary : String
  characteristics : List String
  interpretation : String
  what_to_watch : List String
  failure_signals : List String
  metrics : DistMetrics
deriving DecidableEq

/-- get_summary from distribution_zone_service.py (lines 262-267). -/
def get_summary (confidence : String) : String :=
  if confidence = "High" then
    "Repeated supply rejection during compression after an advance."
  else if confidence = "Medium" then
    "Compression present, but supply signals are mixed."
  else "Early distributional behavior; requires confirmation."

/-- evaluate_window from distribution_zone_service.py (lines 146-260):
compression gate, volume-churn gate, signal-alignment scoring with the
hard upper-wick requirement, upside-acceptance rejection and the final
score gate; errors model ZeroDivisionError on a zero zone midpoint and
statistics.mean on an empty list. -/
def evaluate_window (window prior_window : List Candle) (comp_tol : ℚ) :
    Except Unit (Option DistZone) :=
  if window = [] then .error ()
  else
    let closes := window.map Candle.close
    let highs := window.map Candle.high
    let lows := window.map Candle.low
    let vols := window.map Candle.volume
    let zone_high := MarketStructureService.maxD highs
    let zone_low := MarketStructureService.minD lows
    let zone_mid := (zone_high + zone_low) / 2
    let duration := window.length
    if zone_mid = 0 then .error ()
    else
      let compression_pct := (zone_high - zone_low) / zone_mid
      if compression_pct > comp_tol then .ok none
      else if prior_window = [] then .error ()
      else
        let avg_prior_vol := mean_l (prior_window.map Candle.volume)
        let avg_zone_vol := mean_l vols
        let volume_rel := if avg_prior_vol > 0 then avg_zone_vol / avg_prior_vol else 1
        if volume_rel < 8 / 10 then .ok none
        else
          let s_comp : ℕ := if compression_pct ≤ 4 / 100 then 2 else 0
          let c_comp :=
            if compression_pct ≤ 4 / 100 then
              ["Tight compression (" ++ toString compression_pct ++ ")"]
            else ["Compression within tolerance (" ++ toString compression_pct ++ ")"]
          let s_dur : ℕ := if 8 ≤ duration ∧ duration ≤ 25 then 1 else 0
          let s_vol : ℕ := if volume_rel ≥ 8 / 10 then 2 else 0
          let c_vol := if volume_rel ≥ 8 / 10 then
              ["Active volume churn (supply presence)"] else []
          let upper_wick_count := (window.filter (fun c =>
            decide ((c.high - max c.open_p c.close) / max (c.high - c.low) (1 / 1000000)
              ≥ 35 / 100))).length
          if upper_wick_count < 2 then .ok none
          else
            let s_wick : ℕ := 1
            let c_wick := ["Repeated upper-wick supply rejection"]
            let low_closes := (window.filter (fun c =>
              decide ((c.close - c.low) / max (c.high - c.low) (1 / 1000000)
                ≤ 55 / 100))).length
            let s_close : ℕ :=
              if (low_closes : ℚ) / (duration : ℚ) ≥ 1 / 2 then 1 else 0
            let c_close := if (low_closes : ℚ) / (duration : ℚ) ≥ 1 / 2 then
                ["Weak close positioning (supply dominance)"] else []
            if MarketStructureService.maxD (closes.drop (closes.length - 3))
                > zone_high * (1002 / 1000) then .ok none
            else
              let score := s_comp + s_dur + s_vol + s_wick + s_close
              if score < 3 then .ok none
              else
                let confidence := if 6 ≤ score then "High"
                  else if 4 ≤ score then "Medium" else "Low"
                .ok (some
                  { start_time := (window.headD default_candle).time
                    end_time := (window.getLastD default_candle).time
                    duration := duration
                    compression_pct := CompositeScoringService.roundTo 4 compression_pct
                    confidence := confidence
                    score := score
                    summary := get_summary confidence
                    characteristics := c_comp ++ c_vol ++ c_wick ++ c_close
                    interpretation := "Supply is being distributed into strength rather than absorbed. Price is holding range, but upside attempts are repeatedly rejected, indicating seller presence."
                    what_to_watch :=
                      ["Sustained acceptance above zone high (invalidates distribution)",
                       "Continued upper-wick rejection near highs",
                       "Volume expansion on downside attempts"]
                    failure_signals :=
                      ["Strong closes above zone high with volume",
                       "Absence of upper-wick rejection",
                       "Transition back to absorption behavior"]
                    metrics :=
                      { compression_pct := CompositeScoringService.roundTo 4 compression_pct
                        duration := duration
                        volume_rel := CompositeScoringService.roundTo 2 volume_rel
                        upper_wick_count := upper_wick_count } })

/-- duration_range is range(max_duration, min_dur - 1, -1): the durations
tried per end index, longest first. -/
def duration_range (min_dur : ℕ) : List ℕ :=
  (List.range (max_duration - min_dur + 1)).map (fun k => max_duration - k)

/-- try_durations is the inner duration loop of detect_zones (lines
92-106): first accepted (longest) window wins for this end index;
windows reaching below index 0 or with an empty prior window are
skipped. -/
def try_durations (candles : List Candle) (end_idx : ℤ) (comp_tol : ℚ) :
    List ℕ → Except Unit (Option DistZone)
  | [] => .ok none
  | d :: ds =>
    if end_idx - (d : ℤ) < 0 then try_durations candles end_idx comp_tol ds
    else
      let s := (end_idx - (d : ℤ)).toNat
      let e := end_idx.toNat
      let window := (candles.drop s).take (e - s)
      let prior_start := s - d
      let prior_window := (candles.drop prior_start).take (s - prior_start)
      if prior_window = [] then try_durations candles end_idx comp_tol ds
      else
        match evaluate_window window prior_window comp_tol with
        | .error err => .error err
        | .ok (some zone) => .ok (some zone)
        | .ok none => try_durations candles end_idx comp_tol ds

/-- end_range is range(n, n - lookback, -1): the end indices scanned,
most recent first. -/
def end_range (n : ℕ) : List ℤ :=
  (List.range lookback).map (fun k => (n : ℤ) - (k : ℤ))

/-- scan_ends is the outer end-index loop of detect_zones (lines 91-106),
collecting one accepted zone per end index. -/
def scan_ends (candles : List Candle) (comp_tol : ℚ) (min_dur : ℕ) :
    List ℤ → Except Unit (List DistZone)
  | [] => .ok []
  | e :: es =>
    match try_durations candles e comp_tol (duration_range min_dur) with
    | .error err => .error err
    | .ok z =>
      match scan_ends candles comp_tol min_dur es with
      | .error err => .error err
      | .ok rest =>
        match z with
        | some zone => .ok (zone :: rest)
        | none => .ok rest

/-- ole is the ordering on optional end times used by the merge sort;
the source compares the raw values, raising when None meets a string — a
case unreachable for zones built from timestamped candles. -/
def ole (a b : Option String) : Bool :=
  match a, b with
  | none, _ => true
  | some _, none => false
  | some x, some y => decide (x ≤ y)

/-- insert_by_end inserts stably by end_time. -/
def insert_by_end (z : DistZone) : List DistZone → List DistZone
  | [] => [z]
  | y :: ys => if ole z.end_time y.end_time then z :: y :: ys else y :: insert_by_end z ys

/-- sort_by_end is a stable sort by end_time, modelling the stable
zones.sort(key=lambda x: x.end_time) of _merge_zones. -/
def sort_by_end : List DistZone → List DistZone
  | [] => []
  | z :: zs => insert_by_end z (sort_by_end zs)

/-- merge_zones from distribution_zone_service.py (lines 269-272): keep
only the most recent (last after the stable end_time sort) zone. -/
def merge_zones (zones : List DistZone) : List DistZone :=
  if zones = [] then []
  else
    match (sort_by_end zones).getLast? with
    | some z => [z]
    | none => []

/-- detect_zones_e is the body of detect_zones (lines 70-110) in the
error monad: normalize, profile lookup, length gate, precondition gate,
then the most-recent-first window scan and the single-zone merge. -/
def detect_zones_e (data : List RawRowD) (sma_200_ind : Option ℚ)
    (interval_s : Option String) : Except Unit (List DistZone) :=
  let candles := normalize_d data
  let profile := timeframe_profile (interval_s.getD "day")
  if candles.length < profile.precondition_window then .ok []
  else
    match check_preconditions candles sma_200_ind profile with
    | .error err => .error err
    | .ok pre =>
      if ¬ pre then .ok []
      else
        match scan_ends candles profile.compression_tolerance profile.min_duration
            (end_range candles.length) with
        | .error err => .error err
        | .ok zones => .ok (merge_zones zones)

/-- detect_zones from distribution_zone_service.py (lines 64-114): the
outer try/except degrades every internal error to an empty list. -/
def detect_zones (data : List RawRowD) (sma_200_ind : Option ℚ)
    (interval_s : Option String) : List DistZone :=
  match detect_zones_e data sma_200_ind interval_s with
  | .ok zs => zs
  | .error _ => []

/-- flat_row_d is a concrete flat input row: no price movement, constant
volume. -/
def flat_row_d : RawRowD :=
  { open_f := some (.num 100), high_f := some (.num 101), low_f := some (.num 99),
    close_f := some (.num 100), volume_f := some (.num 10),
    date := some "2024-01-01", time := none, timestamp := none }

end DistributionZoneService


namespace FailedBreakoutService

open Engine

/-- base_window default of FailedBreakoutService.__init__. -/
def base_window : ℕ := 30

/-- reentry_window default of FailedBreakoutService.__init__. -/
def reentry_window : ℕ := 3

/-- min_breakout_range_pct default of FailedBreakoutService.__init__. -/
def min_breakout_range_pct : ℚ := 1 / 100

/-- FBEvent mirrors the FailedBreakoutEvent dataclass
(failed_breakout_service.py lines 13-23). -/
structure FBEvent where
  direction : String
  breakout_level : ℚ
  breakout_time : Option String
  failure_time : Option String
  failure_type : String
  summary : String
  context : List String
  what_to_watch : List String
  confidence : String
deriving DecidableEq

/-- find_breakout_idx is the breakout-candidate loop of
_scan_failed_breakout (lines 122-130): the latest index from base_window
on whose close clears the level by at least min_breakout_range_pct of the
average range. -/
def find_breakout_idx (direction : String) (recent : List Candle)
    (level avg_range : ℚ) : Option ℕ :=
  ((List.range recent.length).filter (fun i =>
    decide (base_window ≤ i) &&
      (let c := recent.getD i default_candle
       if direction = "up" then
         decide (c.close > level) &&
           decide (c.close - level ≥ avg_range * min_breakout_range_pct)
       else
         decide (c.close < level) &&
           decide (level - c.close ≥ avg_range * min_breakout_range_pct)))).getLast?

/-- FBSignals is the record of the five binary failure signals tested
over the re-entry window (lines 138-192). -/
structure FBSignals where
  reentry : Bool
  vol_fail : Bool
  wick_reject : Bool
  no_follow_through : Bool
  counter_candle : Bool
deriving DecidableEq

/-- compute_signals evaluates the five binary signals of
_scan_failed_breakout (lines 138-192) for the breakout candle at the
given index. -/
def compute_signals (direction : String) (recent : List Candle) (breakout_idx : ℕ)
    (level avg_vol : ℚ) : FBSignals :=
  let n := recent.length
  let breakout_candle := recent.getD breakout_idx default_candle
  let window_end := min n (breakout_idx + 1 + reentry_window)
  let after := (recent.drop breakout_idx).take (window_end - breakout_idx)
  let later := (recent.drop (breakout_idx + 1)).take (window_end - (breakout_idx + 1))
  let reentry := after.any (fun c =>
    if direction = "up" then decide (c.close < level) else decide (c.close > level))
  let vol_fail := decide (breakout_candle.volume ≤ avg_vol)
  let rng := max (breakout_candle.high - breakout_candle.low) (1 / 1000000)
  let body := |breakout_candle.close - breakout_candle.open_p|
  let upper := breakout_candle.high - max breakout_candle.open_p breakout_candle.close
  let lower := min breakout_candle.open_p breakout_candle.close - breakout_candle.low
  let wick_reject :=
    if direction = "up" then
      decide (upper / (body + 1 / 1000000) > 12 / 10) && decide (upper / rng > 35 / 100)
    else
      decide (lower / (body + 1 / 1000000) > 12 / 10) && decide (lower / rng > 35 / 100)
  let no_follow_through :=
    if later ≠ [] then
      if direction = "up" then
        !(later.any (fun c2 => decide (c2.close > breakout_candle.close)))
      else
        !(later.any (fun c2 => decide (c2.close < breakout_candle.close)))
    else false
  let counter_candle := later.any (fun c2 =>
    let strong := decide (|c2.close - c2.open_p| / max (c2.high - c2.low) (1 / 1000000) > 6 / 10)
    if direction = "up" then decide (c2.close < c2.open_p) && strong
    else decide (c2.close > c2.open_p) && strong)
  { reentry := reentry, vol_fail := vol_fail, wick_reject := wick_reject,
    no_follow_through := no_follow_through, counter_candle := counter_candle }

/-- count_signals is sum(1 for f in confirmations if f) (line 195). -/
def count_signals (s : FBSignals) : ℕ :=
  (if s.reentry then 1 else 0) + (if s.vol_fail then 1 else 0) +
    (if s.wick_reject then 1 else 0) + (if s.no_follow_through then 1 else 0) +
    (if s.counter_candle then 1 else 0)

/-- classify_failure from failed_breakout_service.py (lines 249-264); the
direction argument is accepted and unused, as in the source. -/
def classify_failure (direction : String) (s : FBSignals) : String :=
  if s.wick_reject && s.reentry then "immediate_rejection"
  else if s.counter_candle && s.reentry then "trap_reversal"
  else if s.vol_fail && s.no_follow_through then "low_volume_fakeout"
  else "generic_failure"

/-- scan_failed_breakout from failed_breakout_service.py (lines 106-247):
find the latest breakout candidate, evaluate the five signals over the
re-entry window, emit an event only when at least 2 signals are true,
with failure_type from classify_failure and confidence from the signal
count. -/
def scan_failed_breakout (direction : String) (recent : List Candle)
    (resistance support avg_range avg_vol : ℚ) : Option FBEvent :=
  let n := recent.length
  if n < 5 ∨ avg_range ≤ 0 then none
  else
    let level := if direction = "up" then resistance else support
    match find_breakout_idx direction recent level avg_range with
    | none => none
    | some breakout_idx =>
      let s := compute_signals direction recent breakout_idx level avg_vol
      let score := count_signals s
      if score < 2 then none
      else
        let breakout_candle := recent.getD breakout_idx default_candle
        let window_end := min n (breakout_idx + 1 + reentry_window)
        let after := (recent.drop breakout_idx).take (window_end - breakout_idx)
        let failure_candle := (after.getLast?).getD default_candle
        let level_r := CompositeScoringService.roundTo 2 level
        let context :=
          ["Breakout " ++ (if direction = "up" then "above" else "below")
              ++ " level ₹" ++ toString level_r]
          ++ (if s.vol_fail then ["Breakout volume did not expand vs recent average"] else [])
          ++ (if s.reentry then ["Price quickly closed back inside prior range"] else [])
          ++ (if s.wick_reject then ["Long wick against breakout direction, showing rejection"] else [])
          ++ (if s.no_follow_through then ["No follow-through closes beyond breakout candle"] else [])
          ++ (if s.counter_candle then ["Strong opposite-direction candle appeared soon after"] else [])
        let what_to_watch :=
          ["Acceptance " ++ (if direction = "up" then "below" else "above")
              ++ " ₹" ++ toString level_r,
           "Behavior around prior range midpoint",
           if direction = "up" then "Watch for downside volume pickup confirming trap"
           else "Watch for upside volume pickup confirming short trap"]
        some { direction := direction
               breakout_level := level_r
               breakout_time := breakout_candle.time
               failure_time := failure_candle.time
               failure_type := classify_failure direction s
               summary := if direction = "up" then
                   "Upside breakout attempt failed with rejection."
                 else "Downside breakout attempt failed with rejection."
               context := context
               what_to_watch := what_to_watch
               confidence := if 4 ≤ score then "High"
                 else if score = 3 then "Medium" else "Low" }

/-- ex_fb_recent is a concrete 34-candle series: 31 flat candles, an
upside breakout candle on below-average volume at index 31, then two
strong reversal candles closing back inside the range. -/
def ex_fb_recent : List Candle :=
  List.replicate 31 ⟨100, 101, 99, 100, 10, none⟩ ++
    [⟨100, 104, 99, 103, 5, none⟩, ⟨100, 100, 97, 98, 8, none⟩,
     ⟨100, 100, 97, 98, 8, none⟩]

/-- ex_fb_event is the event scan_failed_breakout emits on ex_fb_recent
with resistance 101, support 99, average range 2 and average volume 10. -/
def ex_fb_event : FBEvent :=
  (scan_failed_breakout "up" ex_fb_recent 101 99 2 10).getD
    ⟨"", 0, none, none, "", "", [], [], ""⟩

end FailedBreakoutService




open Engine

/-- clamp0100 bounds: the normalized input lies in [0, 100]. -/
theorem clamp0100_bounds (x : ℚ) :
    0 ≤ CompositeScoringService.clamp0100 x ∧ CompositeScoringService.clamp0100 x ≤ 100 := by
  unfold CompositeScoringService.clamp0100
  constructor
  · exact le_max_left 0 _
  · rcases le_total 100 x with h | h
    · simp [min_eq_left h]
    · have : min 100 x ≤ 100 := min_le_left _ _
      exact max_le (by norm_num) this

/-- composite_value bounds: the weighted blend of clamped inputs lies in
[0, 100]. -/
theorem composite_value_bounds (t f s : ℚ) :
    0 ≤ CompositeScoringService.composite_value t f s ∧
      CompositeScoringService.composite_value t f s ≤ 100 := by
  obtain ⟨ht0, ht1⟩ := clamp0100_bounds t
  obtain ⟨hf0, hf1⟩ := clamp0100_bounds f
  obtain ⟨hs0, hs1⟩ := clamp0100_bounds s
  unfold CompositeScoringService.composite_value
  constructor <;> nlinarith

/-- get_band in closed form on the reachable range [0, 100]: STRONG above
70, WEAK up to 39, NEUTRAL everywhere else (the 39-40 and 69-70 gaps fall
to the fallback branch). -/
theorem get_band_closed (v : ℚ) (h0 : 0 ≤ v) (h100 : v ≤ 100) :
    CompositeScoringService.get_band v
      = (if 70 ≤ v then "STRONG" else if v ≤ 39 then "WEAK" else "NEUTRAL") := by
  unfold CompositeScoringService.get_band
  by_cases h1 : 70 ≤ v
  · rw [if_pos ⟨h1, h100⟩, if_pos h1]
  · rw [if_neg (fun hc => h1 hc.1), if_neg h1]
    by_cases h2 : v ≤ 39
    · rw [if_neg (fun hc => absurd hc.1 (by linarith)), if_pos ⟨h0, h2⟩, if_pos h2]
    · rw [if_neg h2]
      push_neg at h1 h2
      split_ifs with hb hc
      · rfl
      · exact absurd hc.2 (by linarith)
      · rfl

/-- C1 counterexample: resolve_bias on three empty candidate lists does not
return confidence "High"; it returns ("NEUTRAL", "Low"). -/
theorem resolve_bias_empty_not_high :
    MarketStructureService.resolve_bias [] [] [] ≠ ("NEUTRAL", "High") := by
  decide

/-- C1 (amended): resolve_bias on three empty candidate lists returns bias
NEUTRAL with confidence Low (not High as the spec states). -/
theorem resolve_bias_empty_neutral_low :
    MarketStructureService.resolve_bias [] [] [] = ("NEUTRAL", "Low") := rfl

/-- C2: resolve_bias follows the fixed priority Failed Breakout >
Distribution > Accumulation > Neutral: a non-empty failure list always
wins with forced High confidence regardless of the events' own
confidence; otherwise the most recent (last) distribution zone wins with
its own confidence; otherwise the most recent accumulation zone wins with
its own confidence. -/
theorem resolve_bias_priority (acc dist : List Zone) (fail : List FailEv)
    (z : Zone) (c : String) :
    (fail ≠ [] →
      MarketStructureService.resolve_bias acc dist fail = ("FAILED_BREAKOUT", "High")) ∧
    (fail = [] → dist.getLast? = some z → z.confidence = some c →
      MarketStructureService.resolve_bias acc dist fail = ("DISTRIBUTION", c)) ∧
    (fail = [] → dist = [] → acc.getLast? = some z → z.confidence = some c →
      MarketStructureService.resolve_bias acc dist fail = ("ACCUMULATION", c)) := by
  refine ⟨fun h => ?_, fun h1 h2 h3 => ?_, fun h1 h2 h3 h4 => ?_⟩
  · simp [MarketStructureService.resolve_bias, h]
  · simp [MarketStructureService.resolve_bias, h1, h2, h3]
  · simp [MarketStructureService.resolve_bias, h1, h2, h3, h4]

/-- C2 witness: concrete instantiations of the priority rule, including a
simultaneous non-empty Accumulation and FailedBreakout candidate set
resolving to FAILED_BREAKOUT. -/
theorem resolve_bias_priority_witness :
    MarketStructureService.resolve_bias
        [⟨"2024-01-01", "2024-01-05", some "Low", none⟩] []
        [⟨some "2024-01-06", none, none, none, none, none, none⟩] = ("FAILED_BREAKOUT", "High") ∧
    MarketStructureService.resolve_bias
        [⟨"2024-01-01", "2024-01-05", some "Low", none⟩]
        [⟨"2024-01-02", "2024-01-06", some "High", none⟩] [] = ("DISTRIBUTION", "High") ∧
    MarketStructureService.resolve_bias
        [⟨"2024-01-01", "2024-01-05", some "Low", none⟩] [] [] = ("ACCUMULATION", "Low") :=
  ⟨(resolve_bias_priority [⟨"2024-01-01", "2024-01-05", some "Low", none⟩] []
      [⟨some "2024-01-06", none, none, none, none, none, none⟩] ⟨"", "", none, none⟩ "High").1 (by decide),
   (resolve_bias_priority [⟨"2024-01-01", "2024-01-05", some "Low", none⟩]
      [⟨"2024-01-02", "2024-01-06", some "High", none⟩] []
      ⟨"2024-01-02", "2024-01-06", some "High", none⟩ "High").2.1 rfl rfl rfl,
   (resolve_bias_priority [⟨"2024-01-01", "2024-01-05", some "Low", none⟩] [] []
      ⟨"2024-01-01", "2024-01-05", some "Low", none⟩ "Low").2.2 rfl rfl rfl rfl⟩

/-- C9 counterexample: Composite(39.5, 39.5, 39.5) has composite value 39.5
(< 40) yet its band is "NEUTRAL", not "WEAK": the band table's WEAK range
stops at 39 and values in the gap fall to the NEUTRAL fallback. -/
theorem composite_band_gap_not_weak :
    (CompositeScoringService.calculate_composite_score (79/2) (79/2) (79/2)).band
        = "NEUTRAL" ∧
      CompositeScoringService.composite_value (79/2) (79/2) (79/2) < 40 ∧
      ("NEUTRAL" : String) ≠ "WEAK" :=
  ⟨by with_unfolding_all rfl,
   of_decide_eq_true (by with_unfolding_all rfl),
   by decide⟩

/-- C9 (amended): the Composite Scorer clamps each input to [0,100] and
blends them with weights 0.40/0.40/0.20; the reported value is the blend
rounded to one decimal; the band of the unrounded blend is STRONG for
value ≥ 70, WEAK for value ≤ 39, and NEUTRAL otherwise — including the
uncovered gaps 39 < value < 40 and 69 < value < 70, which fall to the
NEUTRAL fallback; Composite(100,100,100) has value 100 and band STRONG. -/
theorem composite_score_spec (t f s : ℚ) :
    (CompositeScoringService.calculate_composite_score t f s).value
        = CompositeScoringService.roundTo 1 (CompositeScoringService.composite_value t f s) ∧
    CompositeScoringService.composite_value t f s
        = CompositeScoringService.clamp0100 t * (40/100)
          + CompositeScoringService.clamp0100 f * (40/100)
          + CompositeScoringService.clamp0100 s * (20/100) ∧
    (CompositeScoringService.calculate_composite_score t f s).band
        = (if 70 ≤ CompositeScoringService.composite_value t f s then "STRONG"
           else if CompositeScoringService.composite_value t f s ≤ 39 then "WEAK"
           else "NEUTRAL") ∧
    (CompositeScoringService.calculate_composite_score 100 100 100).value = 100 ∧
    (CompositeScoringService.calculate_composite_score 100 100 100).band = "STRONG" := by
  obtain ⟨h0, h100⟩ := composite_value_bounds t f s
  refine ⟨rfl, rfl, ?_, by with_unfolding_all rfl, by with_unfolding_all rfl⟩
  exact get_band_closed _ h0 h100

namespace RegimeHistoryService

/-- finalize_event leaves the bias unchanged. -/
@[simp] theorem finalize_event_bias (e : RegimeEvent) (nb : Option String) :
    (finalize_event e nb).bias = e.bias := rfl

/-- finalize_event leaves the duration unchanged. -/
@[simp] theorem finalize_event_duration (e : RegimeEvent) (nb : Option String) :
    (finalize_event e nb).duration = e.duration := rfl

/-- bias_flatten distributes over cons. -/
@[simp] theorem bias_flatten_cons (e : RegimeEvent) (l : List RegimeEvent) :
    bias_flatten (e :: l) = List.replicate e.duration e.bias ++ bias_flatten l := by
  simp [bias_flatten]

/-- sum_durations distributes over cons. -/
@[simp] theorem sum_durations_cons (e : RegimeEvent) (l : List RegimeEvent) :
    sum_durations (e :: l) = e.duration + sum_durations l := by
  simp [sum_durations]

/-- compress_go flattens back to the raw bias sequence: the open event
covers its accumulated duration and the remaining states are covered in
order, one bias label per state. -/
theorem compress_go_flatten (rest : List RawState) (cur : RegimeEvent) :
    bias_flatten (compress_go cur rest)
      = List.replicate cur.duration cur.bias ++ rest.map RawState.bias := by
  induction rest generalizing cur with
  | nil => simp [compress_go, bias_flatten]
  | cons s rest ih =>
    by_cases h : s.bias = cur.bias ∧ s.bias ≠ "FAILED_BREAKOUT"
    · rw [compress_go, if_pos h, ih]
      simp only [List.map_cons]
      rw [List.replicate_succ' cur.duration]
      simp [h.1]
    · rw [compress_go, if_neg h]
      simp only [bias_flatten_cons, finalize_event_bias, finalize_event_duration, ih,
        List.map_cons]
      simp

/-- compress_go covers exactly the open duration plus one bar per
remaining raw state. -/
theorem compress_go_sum (rest : List RawState) (cur : RegimeEvent) :
    sum_durations (compress_go cur rest) = cur.duration + rest.length := by
  induction rest generalizing cur with
  | nil => simp [compress_go, sum_durations]
  | cons s rest ih =>
    by_cases h : s.bias = cur.bias ∧ s.bias ≠ "FAILED_BREAKOUT"
    · rw [compress_go, if_pos h, ih]
      show cur.duration + 1 + rest.length = cur.duration + (s :: rest).length
      simp only [List.length_cons]
      omega
    · rw [compress_go, if_neg h]
      simp only [sum_durations_cons, finalize_event_duration, ih, List.length_cons]
      omega

/-- compress_go never grows a FAILED_BREAKOUT event beyond duration 1: the
stitch condition excludes that bias, so such an event is emitted exactly
as it was opened. -/
theorem compress_go_fb (rest : List RawState) (cur : RegimeEvent)
    (hcur : cur.bias = "FAILED_BREAKOUT" → cur.duration = 1) :
    ∀ e ∈ compress_go cur rest, e.bias = "FAILED_BREAKOUT" → e.duration = 1 := by
  induction rest generalizing cur with
  | nil =>
    intro e he hb
    simp [compress_go] at he
    subst he
    exact hcur (by simpa using hb)
  | cons s rest ih =>
    intro e he hb
    by_cases h : s.bias = cur.bias ∧ s.bias ≠ "FAILED_BREAKOUT"
    · rw [compress_go, if_pos h] at he
      refine ih { cur with end_time := s.time, duration := cur.duration + 1 } ?_ e he hb
      intro hfb
      exact absurd (h.1.trans hfb) h.2
    · rw [compress_go, if_neg h] at he
      rcases List.mem_cons.mp he with he | he
      · subst he
        exact hcur (by simpa using hb)
      · exact ih _ (fun _ => rfl) e he hb

/-- compress_go emits a first event carrying the open event's bias. -/
theorem compress_go_head (rest : List RawState) (cur : RegimeEvent) :
    (compress_go cur rest).head?.map RegimeEvent.bias = some cur.bias := by
  induction rest generalizing cur with
  | nil => simp [compress_go]
  | cons s rest ih =>
    by_cases h : s.bias = cur.bias ∧ s.bias ≠ "FAILED_BREAKOUT"
    · rw [compress_go, if_pos h]
      exact ih _
    · rw [compress_go, if_neg h]
      simp

/-- compress_go never emits two adjacent events of the same bias unless
that bias is FAILED_BREAKOUT (which is deliberately not stitched). -/
theorem compress_go_chain (rest : List RawState) (cur : RegimeEvent) :
    List.Chain' (fun a b => a.bias = b.bias → a.bias = "FAILED_BREAKOUT")
      (compress_go cur rest) := by
  induction rest generalizing cur with
  | nil => simp [compress_go]
  | cons s rest ih =>
    by_cases h : s.bias = cur.bias ∧ s.bias ≠ "FAILED_BREAKOUT"
    · rw [compress_go, if_pos h]
      exact ih _
    · rw [compress_go, if_neg h]
      rw [List.chain'_cons']
      refine ⟨?_, ih _⟩
      intro b hb
      have hhead := compress_go_head rest
        { start_time := s.time, end_time := s.time, bias := s.bias,
          confidence := s.confidence, duration := 1,
          transition_in := some cur.bias, transition_out := none,
          narrative := none }
      rw [hb] at hhead
      simp only [Option.map_some] at hhead
      have hbbias : b.bias = s.bias := by simpa using hhead
      intro heq
      simp only [finalize_event_bias] at heq ⊢
      rw [not_and_or] at h
      rcases h with h | h
      · exact absurd (heq.trans hbbias).symm h
      · rw [not_ne_iff] at h
        rw [heq, hbbias, h]

end RegimeHistoryService

namespace RegimeHistoryService

/-- raw_states keeps exactly one state per candle whenever every candle
carries a truthy time/date, so its length is the candle count. -/
theorem raw_states_length_of_all (candles : List RawCandle) (acc dist : List Zone)
    (fail : List FailEv)
    (h : candles.all (fun c => (get_date_str c).isSome) = true) :
    (raw_states candles acc dist fail).length = candles.length := by
  induction candles with
  | nil => rfl
  | cons c cs ih =>
    rw [List.all_cons, Bool.and_eq_true] at h
    cases hd : get_date_str c with
    | none =>
      rw [hd] at h
      simp at h
    | some t =>
      simp only [raw_states, List.filterMap_cons, hd, List.length_cons]
      exact congrArg (· + 1) (ih h.2)

end RegimeHistoryService

/-- C7 counterexample: a one-candle series whose candle has no time/date
entry produces an empty regime history, so the total duration is 0 while
the candle count is 1 — the history does not cover every candle of the
source series. -/
theorem regime_history_misses_timeless_candle :
    RegimeHistoryService.generate_history
        [⟨0, 0, 0, 0, 0, none, none⟩] [] [] [] = [] ∧
      RegimeHistoryService.sum_durations
        (RegimeHistoryService.generate_history [⟨0, 0, 0, 0, 0, none, none⟩] [] [] []) = 0 ∧
      [(⟨0, 0, 0, 0, 0, none, none⟩ : RegimeHistoryService.RawCandle)].length = 1 ∧
      (0 : ℕ) ≠ 1 :=
  ⟨by with_unfolding_all rfl, by with_unfolding_all rfl, rfl, by decide⟩

/-- C7 (amended): the stitched regime history is contiguous and
non-overlapping — flattening its events, one bias per covered candle,
reproduces the per-candle classification sequence exactly, and the event
durations sum to the number of raw per-candle states. That number equals
the candle count of the source series only for candles bearing a truthy
time/date entry (candles without one are silently skipped, which is where
the claim as stated fails). -/
theorem regime_history_coverage (candles : List RegimeHistoryService.RawCandle)
    (acc dist : List Zone) (fail : List FailEv) :
    RegimeHistoryService.bias_flatten
        (RegimeHistoryService.generate_history candles acc dist fail)
      = (RegimeHistoryService.raw_states candles acc dist fail).map
          RegimeHistoryService.RawState.bias ∧
    RegimeHistoryService.sum_durations
        (RegimeHistoryService.generate_history candles acc dist fail)
      = (RegimeHistoryService.raw_states candles acc dist fail).length ∧
    (candles.all (fun c => (RegimeHistoryService.get_date_str c).isSome) = true →
      RegimeHistoryService.sum_durations
          (RegimeHistoryService.generate_history candles acc dist fail)
        = candles.length) := by
  by_cases hc : candles = []
  · subst hc
    exact ⟨rfl, rfl, fun _ => rfl⟩
  · rw [RegimeHistoryService.generate_history, if_neg hc]
    rcases hr : RegimeHistoryService.raw_states candles acc dist fail with _ | ⟨s, rest⟩
    · refine ⟨rfl, rfl, fun h => ?_⟩
      have hlen := RegimeHistoryService.raw_states_length_of_all candles acc dist fail h
      rw [hr] at hlen
      simpa [RegimeHistoryService.compress_states,
        RegimeHistoryService.sum_durations] using hlen
    · refine ⟨?_, ?_, fun h => ?_⟩
      · rw [RegimeHistoryService.compress_states, RegimeHistoryService.compress_go_flatten]
        simp
      · rw [RegimeHistoryService.compress_states, RegimeHistoryService.compress_go_sum]
        simp
        omega
      · have hlen := RegimeHistoryService.raw_states_length_of_all candles acc dist fail h
        rw [hr] at hlen
        rw [RegimeHistoryService.compress_states, RegimeHistoryService.compress_go_sum, ← hlen]
        simp
        omega

/-- C7 witness: on a two-candle series in which every candle has a
timestamp, the event durations sum to the candle count, 2. -/
theorem regime_history_coverage_witness :
    ([(⟨0, 0, 0, 0, 0, some "2024-01-01", none⟩ : RegimeHistoryService.RawCandle),
      ⟨0, 0, 0, 0, 0, some "2024-01-02", none⟩].all
        (fun c => (RegimeHistoryService.get_date_str c).isSome) = true) ∧
    RegimeHistoryService.sum_durations
        (RegimeHistoryService.generate_history
          [⟨0, 0, 0, 0, 0, some "2024-01-01", none⟩,
           ⟨0, 0, 0, 0, 0, some "2024-01-02", none⟩] [] [] []) = 2 :=
  ⟨by with_unfolding_all rfl,
   (regime_history_coverage
      [⟨0, 0, 0, 0, 0, some "2024-01-01", none⟩,
       ⟨0, 0, 0, 0, 0, some "2024-01-02", none⟩] [] [] []).2.2
     (by with_unfolding_all rfl)⟩

/-- C8: in the stitched history a FAILED_BREAKOUT event always has
duration exactly 1 (the stitch condition excludes that bias, so it is
never merged across slices), and two adjacent events carry the same bias
only when that bias is FAILED_BREAKOUT (every other repeated bias is
merged into a single event). -/
theorem failed_breakout_never_stitched (candles : List RegimeHistoryService.RawCandle)
    (acc dist : List Zone) (fail : List FailEv) :
    ((RegimeHistoryService.generate_history candles acc dist fail).all
        (fun e => !(e.bias == "FAILED_BREAKOUT") || (e.duration == 1))) = true ∧
    List.Chain' (fun a b => a.bias = b.bias → a.bias = "FAILED_BREAKOUT")
      (RegimeHistoryService.generate_history candles acc dist fail) := by
  constructor
  · rw [List.all_eq_true]
    intro e he
    have hfb : e.bias = "FAILED_BREAKOUT" → e.duration = 1 := by
      intro hb
      rw [RegimeHistoryService.generate_history] at he
      by_cases hc : candles = []
      · rw [if_pos hc] at he
        simp at he
      · rw [if_neg hc] at he
        rcases hr : RegimeHistoryService.raw_states candles acc dist fail with _ | ⟨s, rest⟩
        · rw [hr] at he
          simp [RegimeHistoryService.compress_states] at he
        · rw [hr] at he
          rw [RegimeHistoryService.compress_states] at he
          exact RegimeHistoryService.compress_go_fb rest _ (fun _ => rfl) e he hb
    by_cases hb : e.bias = "FAILED_BREAKOUT"
    · simp [hb, hfb hb]
    · simp [hb]
  · rw [RegimeHistoryService.generate_history]
    by_cases hc : candles = []
    · rw [if_pos hc]
      exact List.chain'_nil
    · rw [if_neg hc]
      rcases RegimeHistoryService.raw_states candles acc dist fail with _ | ⟨s, rest⟩
      · exact List.chain'_nil
      · exact RegimeHistoryService.compress_go_chain rest _

/-- C8 witness: a failed-breakout event spanning two adjacent candles
yields two separate FAILED_BREAKOUT regime events of duration 1 each,
rather than one merged event of duration 2. -/
theorem failed_breakout_never_stitched_witness :
    ((RegimeHistoryService.generate_history
        [⟨0, 0, 0, 0, 0, some "2024-01-01", none⟩,
         ⟨0, 0, 0, 0, 0, some "2024-01-02", none⟩] [] []
        [⟨none, some "2024-01-01", some "2024-01-02", none, none, none, none⟩]).all
        (fun e => !(e.bias == "FAILED_BREAKOUT") || (e.duration == 1))) = true ∧
    (RegimeHistoryService.generate_history
        [⟨0, 0, 0, 0, 0, some "2024-01-01", none⟩,
         ⟨0, 0, 0, 0, 0, some "2024-01-02", none⟩] [] []
        [⟨none, some "2024-01-01", some "2024-01-02", none, none, none, none⟩]).map
      (fun e => (e.bias, e.duration)) = [("FAILED_BREAKOUT", 1), ("FAILED_BREAKOUT", 1)] :=
  ⟨(failed_breakout_never_stitched
      [⟨0, 0, 0, 0, 0, some "2024-01-01", none⟩,
       ⟨0, 0, 0, 0, 0, some "2024-01-02", none⟩] [] []
      [⟨none, some "2024-01-01", some "2024-01-02", none, none, none, none⟩]).1,
   by with_unfolding_all rfl⟩

namespace RegimeHistoryService

/-- finalize_event leaves the confidence unchanged. -/
@[simp] theorem finalize_event_confidence (e : RegimeEvent) (nb : Option String) :
    (finalize_event e nb).confidence = e.confidence := rfl

/-- compress_go emits only events carrying the constant bias and
confidence when every remaining raw state (and the open event) carries
them. -/
theorem compress_go_const (rest : List RawState) (cur : RegimeEvent) (b c : String)
    (hrest : ∀ s ∈ rest, s.bias = b ∧ s.confidence = c)
    (hb : cur.bias = b) (hcf : cur.confidence = c) :
    ∀ e ∈ compress_go cur rest, e.bias = b ∧ e.confidence = c := by
  induction rest generalizing cur with
  | nil =>
    intro e he
    simp [compress_go] at he
    subst he
    exact ⟨by simpa using hb, by simpa using hcf⟩
  | cons s rest ih =>
    intro e he
    by_cases h : s.bias = cur.bias ∧ s.bias ≠ "FAILED_BREAKOUT"
    · rw [compress_go, if_pos h] at he
      exact ih { cur with end_time := s.time, duration := cur.duration + 1 }
        (fun s' hs' => hrest s' (List.mem_cons_of_mem _ hs')) hb hcf e he
    · rw [compress_go, if_neg h] at he
      rcases List.mem_cons.mp he with he | he
      · subst he
        exact ⟨by simpa using hb, by simpa using hcf⟩
      · obtain ⟨hsb, hsc⟩ := hrest s (List.mem_cons_self ..)
        exact ih _ (fun s' hs' => hrest s' (List.mem_cons_of_mem _ hs')) hsb hsc e he

/-- raw_states over three empty detector outputs classifies every slice
as NEUTRAL with confidence Low (resolve_bias's empty case). -/
theorem raw_states_empty_detectors (candles : List RawCandle) :
    ∀ s ∈ raw_states candles [] [] [], s.bias = "NEUTRAL" ∧ s.confidence = "Low" := by
  intro s hs
  rw [raw_states] at hs
  obtain ⟨c, _, hfc⟩ := List.mem_filterMap.mp hs
  cases hd : get_date_str c with
  | none => rw [hd] at hfc; simp at hfc
  | some t =>
    rw [hd] at hfc
    simp only [MarketStructureService.resolve_bias, List.filter_nil] at hfc
    simp at hfc
    exact ⟨by rw [← hfc], by rw [← hfc]⟩

end RegimeHistoryService

/-- evaluate_structure_core with three empty detector outputs reduces to
the neutral state carrying the stitched (all-empty-detector) history: the
transition block never fires because the bias is NEUTRAL. -/
theorem evaluate_structure_core_empty (candles : List RegimeHistoryService.RawCandle)
    (prev : Option String) :
    MarketStructureService.evaluate_structure_core candles [] [] [] prev
      = { MarketStructureService.get_neutral_state candles with
          regime_history := RegimeHistoryService.generate_history candles [] [] [] } := by
  cases prev with
  | none => rfl
  | some pb =>
    rw [MarketStructureService.evaluate_structure_core]
    simp only [List.getLast?]
    have hcond : ¬(pb ≠ (MarketStructureService.get_neutral_state candles).bias ∧
        (MarketStructureService.get_neutral_state candles).bias ≠ "NEUTRAL") := by
      intro h
      exact h.2 rfl
    by_cases hpb : pb = ""
    · subst hpb
      simp [MarketStructureService.resolve_bias, ostr]
    · simp [MarketStructureService.resolve_bias, ostr, hpb, hcond]

/-- C10: when no detector produces any candidate, the state returned by
the evaluate_structure decision matrix has bias NEUTRAL with confidence
"High" (built by get_neutral_state), while every per-candle slice of the
same state's regime_history resolves to NEUTRAL with confidence "Low"
(resolve_bias's empty case) — the top-level state and the stitched
history assign different confidences to the same nothing-detected
condition. -/
theorem neutral_confidence_mismatch (candles : List RegimeHistoryService.RawCandle)
    (prev : Option String) :
    (MarketStructureService.evaluate_structure_core candles [] [] [] prev).bias
        = "NEUTRAL" ∧
    (MarketStructureService.evaluate_structure_core candles [] [] [] prev).confidence
        = "High" ∧
    ((MarketStructureService.evaluate_structure_core candles [] [] [] prev).regime_history.all
        (fun e => e.bias == "NEUTRAL" && e.confidence == "Low")) = true := by
  rw [evaluate_structure_core_empty]
  refine ⟨rfl, rfl, ?_⟩
  rw [List.all_eq_true]
  intro e he
  have hhist : e.bias = "NEUTRAL" ∧ e.confidence = "Low" := by
    simp only [RegimeHistoryService.generate_history] at he
    by_cases hc : candles = []
    · rw [if_pos hc] at he
      simp at he
    · rw [if_neg hc] at he
      rcases hr : RegimeHistoryService.raw_states candles [] [] [] with _ | ⟨s, rest⟩
      · rw [hr] at he
        simp [RegimeHistoryService.compress_states] at he
      · rw [hr] at he
        rw [RegimeHistoryService.compress_states] at he
        have hall := RegimeHistoryService.raw_states_empty_detectors candles
        rw [hr] at hall
        obtain ⟨hsb, hsc⟩ := hall s (List.mem_cons_self ..)
        exact RegimeHistoryService.compress_go_const rest _ "NEUTRAL" "Low"
          (fun s' hs' => hall s' (List.mem_cons_of_mem _ hs')) hsb hsc e he
  simp [hhist.1, hhist.2]

/-- C10 witness: on a concrete two-candle series with no detector
candidates, the top-level state is NEUTRAL/High while its regime history
slices are NEUTRAL/Low. -/
theorem neutral_confidence_mismatch_witness :
    (MarketStructureService.evaluate_structure_core
        [⟨1, 2, 1, 2, 5, some "2024-01-01", none⟩,
         ⟨1, 2, 1, 2, 5, some "2024-01-02", none⟩] [] [] [] none).confidence = "High" ∧
    ((MarketStructureService.evaluate_structure_core
        [⟨1, 2, 1, 2, 5, some "2024-01-01", none⟩,
         ⟨1, 2, 1, 2, 5, some "2024-01-02", none⟩] [] [] [] none).regime_history.map
      (fun e => (e.bias, e.confidence))) = [("NEUTRAL", "Low")] :=
  ⟨(neutral_confidence_mismatch
      [⟨1, 2, 1, 2, 5, some "2024-01-01", none⟩,
       ⟨1, 2, 1, 2, 5, some "2024-01-02", none⟩] none).2.1,
   by with_unfolding_all rfl⟩

/-- C3 counterexample: merging an overlapping pair where the second zone
has the higher confidence keeps the FIRST (earlier-start) zone's
confidence, summary and characteristics — not the higher-confidence
zone's, as the spec states. -/
theorem merge_overlaps_keeps_first_zone_fields :
    (AccumulationZoneService.merge_overlaps
        [⟨10, 5, "2024-01-01", "2024-01-10", 10, "Low", 3, "low zone",
            ["absorption"], "", [], [], ⟨0, 10, 1, 0⟩⟩,
         ⟨12, 6, "2024-01-05", "2024-01-12", 8, "High", 2, "high zone",
            ["churn"], "", [], [], ⟨0, 8, 1, 0⟩⟩]).map
        (fun z => (z.confidence, z.summary, z.characteristics))
      = [("Low", "low zone", ["absorption"])] ∧
    ("Low" : String) ≠ "High" :=
  ⟨by with_unfolding_all rfl, by decide⟩

/-- C3 (amended): merging two overlapping accepted zones (listed in start
order) widens the bounds to min/max of the lows and highs, takes the max
of the scores, durations and end times, and keeps every other field —
confidence, summary, characteristics, start_time — from the
earlier-start zone, regardless of which zone has the higher
confidence. -/
theorem merge_overlaps_pair (z1 z2 : AccumulationZoneService.AccumulationZone)
    (hsort : z1.start_time ≤ z2.start_time) (hover : z2.start_time ≤ z1.end_time) :
    AccumulationZoneService.merge_overlaps [z1, z2]
      = [{ z1 with
            zone_high := max z1.zone_high z2.zone_high
            zone_low := min z1.zone_low z2.zone_low
            end_time := max z1.end_time z2.end_time
            duration := max z1.duration z2.duration
            score := max z1.score z2.score }] := by
  simp [AccumulationZoneService.merge_overlaps, AccumulationZoneService.sort_by_start,
    AccumulationZoneService.insert_by_start, AccumulationZoneService.merge_step,
    hsort, hover]

/-- C3 witness: a concrete overlapping pair evaluated through the merge,
with the merged bounds, score and retained narrative fields computed. -/
theorem merge_overlaps_pair_witness :
    AccumulationZoneService.merge_overlaps
        [⟨20, 15, "2024-02-01", "2024-02-09", 9, "Medium", 4, "first", ["f"],
            "", [], [], ⟨0, 9, 1, 0⟩⟩,
         ⟨22, 14, "2024-02-03", "2024-02-12", 8, "High", 6, "second", ["s"],
            "", [], [], ⟨0, 8, 1, 0⟩⟩]
      = [⟨22, 14, "2024-02-01", "2024-02-12", 9, "Medium", 6, "first", ["f"],
            "", [], [], ⟨0, 9, 1, 0⟩⟩] :=
  (merge_overlaps_pair
      ⟨20, 15, "2024-02-01", "2024-02-09", 9, "Medium", 4, "first", ["f"],
        "", [], [], ⟨0, 9, 1, 0⟩⟩
      ⟨22, 14, "2024-02-03", "2024-02-12", 8, "High", 6, "second", ["s"],
        "", [], [], ⟨0, 8, 1, 0⟩⟩
      (of_decide_eq_true (by with_unfolding_all rfl))
      (of_decide_eq_true (by with_unfolding_all rfl))).trans
    (by with_unfolding_all rfl)

/-- normalize agrees with filterMap of the per-row parse (order
preserved, unparseable rows dropped). -/
theorem normalize_eq_filterMap (data : List AccumulationZoneService.RawRowA) :
    AccumulationZoneService.normalize data
      = data.filterMap AccumulationZoneService.parse_row := by
  induction data with
  | nil => rfl
  | cons r rest ih =>
    rw [AccumulationZoneService.normalize]
    cases h : AccumulationZoneService.parse_row r <;>
      simp [List.filterMap_cons, h, ih]

/-- normalize_fb agrees with filterMap of its per-row parse. -/
theorem normalize_fb_eq_filterMap (data : List AccumulationZoneService.RawRowA) :
    FailedBreakoutService.normalize_fb data
      = data.filterMap FailedBreakoutService.parse_row_fb := by
  induction data with
  | nil => rfl
  | cons r rest ih =>
    rw [FailedBreakoutService.normalize_fb]
    cases h : FailedBreakoutService.parse_row_fb r <;>
      simp [List.filterMap_cons, h, ih]

/-- C4 counterexample: the normalizer neither sorts nor de-duplicates —
rows arriving out of chronological order stay out of order, and two rows
with the same timestamp are both retained (no later-write-wins). -/
theorem normalize_not_sorted_not_deduped :
    (AccumulationZoneService.normalize
        [AccumulationZoneService.mk_row_a 1 (some "2024-02-01"),
         AccumulationZoneService.mk_row_a 2 (some "2024-01-01")]).map Candle.time
      = [some "2024-02-01", some "2024-01-01"] ∧
    AccumulationZoneService.chronologically_sorted
        (AccumulationZoneService.normalize
          [AccumulationZoneService.mk_row_a 1 (some "2024-02-01"),
           AccumulationZoneService.mk_row_a 2 (some "2024-01-01")]) = false ∧
    (AccumulationZoneService.normalize
        [AccumulationZoneService.mk_row_a 1 (some "2024-03-01"),
         AccumulationZoneService.mk_row_a 2 (some "2024-03-01")]).map
        (fun c => (c.time, c.close))
      = [(some "2024-03-01", 1), (some "2024-03-01", 2)] :=
  ⟨by with_unfolding_all rfl, by with_unfolding_all rfl, by with_unfolding_all rfl⟩

/-- C4 (amended): candle normalization maps each parseable row to a
canonical candle preserving the input order (no sorting, no
de-duplication: all rows with equal timestamps are retained), silently
dropping rows on which parsing raises; it is a total function (never
raises), and empty or entirely unparseable input yields an empty
sequence. The failed-breakout variant behaves the same, additionally
dropping rows with no truthy timestamp. -/
theorem normalize_spec (data : List AccumulationZoneService.RawRowA) :
    AccumulationZoneService.normalize data
        = data.filterMap AccumulationZoneService.parse_row ∧
    FailedBreakoutService.normalize_fb data
        = data.filterMap FailedBreakoutService.parse_row_fb ∧
    AccumulationZoneService.normalize ([] : List AccumulationZoneService.RawRowA) = [] ∧
    ((data.all (fun r => (AccumulationZoneService.parse_row r).isNone)) = true →
      AccumulationZoneService.normalize data = []) := by
  refine ⟨normalize_eq_filterMap data, normalize_fb_eq_filterMap data, rfl, fun hall => ?_⟩
  rw [normalize_eq_filterMap data, List.filterMap_eq_nil_iff]
  intro r hr
  have := List.all_eq_true.mp hall r hr
  simpa [Option.isNone_iff_eq_none] using this

/-- C4 witness: a list consisting of one junk row is entirely
unparseable, and normalization yields the empty sequence. -/
theorem normalize_spec_witness :
    ([AccumulationZoneService.junk_row_a].all
        (fun r => (AccumulationZoneService.parse_row r).isNone)) = true ∧
    AccumulationZoneService.normalize [AccumulationZoneService.junk_row_a] = [] :=
  ⟨by with_unfolding_all rfl,
   (normalize_spec [AccumulationZoneService.junk_row_a]).2.2.2 (by with_unfolding_all rfl)⟩

/-- C6: a failed-breakout event is emitted only when at least 2 of the 5
binary signals hold, and its failure_type is resolved in the fixed order
(wick-reject ∧ re-entry) → immediate_rejection, else (counter-candle ∧
re-entry) → trap_reversal, else (volume-fail ∧ no-follow-through) →
low_volume_fakeout, else generic_failure. -/
theorem scan_requires_two_signals (direction : String) (recent : List Candle)
    (resistance support avg_range avg_vol : ℚ) (ev : FailedBreakoutService.FBEvent)
    (h : FailedBreakoutService.scan_failed_breakout direction recent resistance support
        avg_range avg_vol = some ev) :
    ∃ breakout_idx,
      FailedBreakoutService.find_breakout_idx direction recent
          (if direction = "up" then resistance else support) avg_range
        = some breakout_idx ∧
      2 ≤ FailedBreakoutService.count_signals
          (FailedBreakoutService.compute_signals direction recent breakout_idx
            (if direction = "up" then resistance else support) avg_vol) ∧
      ev.failure_type =
        (if (FailedBreakoutService.compute_signals direction recent breakout_idx
              (if direction = "up" then resistance else support) avg_vol).wick_reject
            && (FailedBreakoutService.compute_signals direction recent breakout_idx
              (if direction = "up" then resistance else support) avg_vol).reentry
         then "immediate_rejection"
         else if (FailedBreakoutService.compute_signals direction recent breakout_idx
              (if direction = "up" then resistance else support) avg_vol).counter_candle
            && (FailedBreakoutService.compute_signals direction recent breakout_idx
              (if direction = "up" then resistance else support) avg_vol).reentry
         then "trap_reversal"
         else if (FailedBreakoutService.compute_signals direction recent breakout_idx
              (if direction = "up" then resistance else support) avg_vol).vol_fail
            && (FailedBreakoutService.compute_signals direction recent breakout_idx
              (if direction = "up" then resistance else support) avg_vol).no_follow_through
         then "low_volume_fakeout"
         else "generic_failure") := by
  rw [FailedBreakoutService.scan_failed_breakout] at h
  by_cases hn : recent.length < 5 ∨ avg_range ≤ 0
  · rw [if_pos hn] at h
    exact absurd h (by simp)
  · rw [if_neg hn] at h
    simp only [] at h
    rcases hidx : FailedBreakoutService.find_breakout_idx direction recent
        (if direction = "up" then resistance else support) avg_range with _ | breakout_idx
    · rw [hidx] at h
      exact absurd h (by simp)
    · rw [hidx] at h
      simp only [] at h
      refine ⟨breakout_idx, rfl, ?_, ?_⟩
      · by_cases hs : FailedBreakoutService.count_signals
            (FailedBreakoutService.compute_signals direction recent breakout_idx
              (if direction = "up" then resistance else support) avg_vol) < 2
        · rw [if_pos hs] at h
          exact absurd h (by simp)
        · omega
      · by_cases hs : FailedBreakoutService.count_signals
            (FailedBreakoutService.compute_signals direction recent breakout_idx
              (if direction = "up" then resistance else support) avg_vol) < 2
        · rw [if_pos hs] at h
          exact absurd h (by simp)
        · rw [if_neg hs] at h
          have hev := (Option.some.injEq _ _).mp h
          rw [← hev]
          rfl

/-- C6 witness: on a concrete series with an upside breakout on
below-average volume followed by re-entry and a strong counter candle,
the scan emits an event; 4 of the 5 signals hold and the failure type
resolves to trap_reversal (counter-candle ∧ re-entry, after the
wick-reject branch fails). -/
theorem scan_requires_two_signals_witness :
    FailedBreakoutService.scan_failed_breakout "up" FailedBreakoutService.ex_fb_recent
        101 99 2 10 = some FailedBreakoutService.ex_fb_event ∧
    2 ≤ FailedBreakoutService.count_signals
        (FailedBreakoutService.compute_signals "up" FailedBreakoutService.ex_fb_recent 31
          101 10) ∧
    FailedBreakoutService.ex_fb_event.failure_type = "trap_reversal" := by
  have h : FailedBreakoutService.scan_failed_breakout "up" FailedBreakoutService.ex_fb_recent
      101 99 2 10 = some FailedBreakoutService.ex_fb_event := by
    with_unfolding_all rfl
  obtain ⟨bIdx, hidx, hcount, hft⟩ := scan_requires_two_signals "up"
    FailedBreakoutService.ex_fb_recent 101 99 2 10 FailedBreakoutService.ex_fb_event h
  have hb : bIdx = 31 := by
    have h31 : FailedBreakoutService.find_breakout_idx "up" FailedBreakoutService.ex_fb_recent
        (if ("up" : String) = "up" then (101 : ℚ) else 99) 2 = some 31 := by
      with_unfolding_all rfl
    have := hidx.symm.trans h31
    exact Option.some.inj this
  subst hb
  refine ⟨h, by simpa using hcount, ?_⟩
  rw [hft]
  with_unfolding_all rfl

/-- C5: the Distribution Zone Detector returns an empty list whenever the
precondition check does not succeed with True — prior advance below the
threshold, current price below a truthy long-term mean, or an internal
error — and in that case no window scanning takes place (the scan branch
is never evaluated). -/
theorem dist_detect_empty_on_failed_precondition
    (data : List DistributionZoneService.RawRowD) (sma_200_ind : Option ℚ)
    (interval_s : Option String)
    (h : DistributionZoneService.check_preconditions
        (DistributionZoneService.normalize_d data) sma_200_ind
        (DistributionZoneService.timeframe_profile (interval_s.getD "day"))
      ≠ .ok true) :
    DistributionZoneService.detect_zones data sma_200_ind interval_s = [] := by
  rw [DistributionZoneService.detect_zones, DistributionZoneService.detect_zones_e]
  by_cases hlen : (DistributionZoneService.normalize_d data).length <
      (DistributionZoneService.timeframe_profile (interval_s.getD "day")).precondition_window
  · rw [if_pos hlen]
  · rw [if_neg hlen]
    rcases hc : DistributionZoneService.check_preconditions
        (DistributionZoneService.normalize_d data) sma_200_ind
        (DistributionZoneService.timeframe_profile (interval_s.getD "day")) with err | pre
    · rfl
    · cases pre with
      | true => exact absurd hc h
      | false => rfl

/-- C5 witness: a 30-candle flat weekly series (0% prior advance, every
bar compressed) fails the precondition with False, and detect_zones
returns the empty list. -/
theorem dist_detect_empty_witness :
    DistributionZoneService.check_preconditions
        (DistributionZoneService.normalize_d
          (List.replicate 30 DistributionZoneService.flat_row_d)) none
        (DistributionZoneService.timeframe_profile ((some "week").getD "day"))
      = .ok false ∧
    DistributionZoneService.detect_zones
      (List.replicate 30 DistributionZoneService.flat_row_d) none (some "week") = [] := by
  have h1 : DistributionZoneService.check_preconditions
      (DistributionZoneService.normalize_d
        (List.replicate 30 DistributionZoneService.flat_row_d)) none
      (DistributionZoneService.timeframe_profile ((some "week").getD "day"))
      = .ok false := by with_unfolding_all rfl
  refine ⟨h1, dist_detect_empty_on_failed_precondition _ none (some "week") ?_⟩
  intro hcontra
  have := h1.symm.trans hcontra
  simp at this
